import Mathlib

/-!
Shallow embedding of the in-game lineup state machine of the
Sports-Management-App repository (TeamContext provider and GamePage
substitution planner), together with theorems settling the frozen claims
about it.

Times are modelled as natural-number millisecond timestamps (the source
uses `Date.now()`), accumulated playtime as integer seconds (every write
in the source goes through `Math.round`), and JavaScript `Math.round`
as Mathlib's `round : ℚ → ℤ` (both are floor of x + 1/2).
-/

/-- Location of a player inside a game lineup: the source union type
`'bench' | 'field' | 'inactive'`. -/
inductive Location where
  | field
  | bench
  | inactive
deriving DecidableEq, Repr

/-- Percentage-normalized 2D field coordinate `{ x, y }`. -/
structure Pos where
  x : ℚ
  y : ℚ
deriving DecidableEq, Repr

/-- The per-player per-game lineup record `PlayerLineupState` of the source. -/
structure PlayerLineupState where
  id : String
  location : Location
  position : Option Pos
  playtimeSeconds : ℤ
  playtimerStartTime : Option ℕ
  isStarter : Bool
  subbedOnCount : ℕ
  subbedOffCount : ℕ
deriving DecidableEq, Repr

/-- Game clock status: the source union `'stopped' | 'running'`. -/
inductive TimerStatus where
  | stopped
  | running
deriving DecidableEq, Repr

/-- Home/away flag of a game (source field `location: 'home' | 'away'`). -/
inductive GameVenue where
  | home
  | away
deriving DecidableEq, Repr

/-- The `Game` record of the source (persistent state fields). -/
structure Game where
  id : String
  opponent : String
  date : String
  time : String
  venue : GameVenue
  homeScore : ℤ
  awayScore : ℤ
  timerStatus : TimerStatus
  timerStartTime : Option ℕ
  timerElapsedSeconds : ℤ
  isExplicitlyFinished : Bool
  lineup : Option (List PlayerLineupState)
deriving DecidableEq, Repr

/-- Banking formula used throughout the source:
`Math.round(playtimeSeconds + (now - startTime) / 1000)` with the
timestamps in milliseconds. -/
def roundedPlaytime (p : ℤ) (startT now : ℕ) : ℤ :=
  round ((p : ℚ) + ((now : ℚ) - (startT : ℚ)) / 1000)

/-- Core per-entry transition of `movePlayerInGame` (timer banking, timer
restart, substitution counters, structural update), translated line by
line from the source.  `sourceLocation` and `targetLocation` are the
caller-supplied arguments; the entry's stored location is not consulted
by the timer or counter logic.  The banking guard is the JavaScript
truthiness test `&& playerState.playtimerStartTime`: both a null and a
zero start time are falsy, so banking is skipped for a stored start time
of 0 (the `s ≠ 0` conjunct below), while step 2's strict
`updatedStartTime === null` comparison still treats 0 as set. -/
def movePlayerCore (isGameRunning : Bool) (now : ℕ)
    (sourceLocation targetLocation : Location) (newPosition : Option Pos)
    (p : PlayerLineupState) : PlayerLineupState :=
  -- step 1: stop timer if moving FROM field or inactive and timer was
  -- running (truthy: non-null and nonzero)
  let banked : ℤ × Option ℕ :=
    match p.playtimerStartTime with
    | some s =>
        if (sourceLocation = Location.field ∨ sourceLocation = Location.inactive)
            ∧ s ≠ 0 then
          (roundedPlaytime p.playtimeSeconds s now, none)
        else
          (p.playtimeSeconds, some s)
    | none => (p.playtimeSeconds, none)
  -- step 2: start timer if moving TO field while the game is running;
  -- clear it when moving to bench or inactive
  let updatedStartTime : Option ℕ :=
    if targetLocation = Location.field then
      if isGameRunning then
        match banked.2 with
        | none => some now
        | some s => some s
      else banked.2
    else none
  let updatedSubbedOnCount : ℕ :=
    if sourceLocation = Location.bench ∧ targetLocation = Location.field then
      p.subbedOnCount + 1
    else p.subbedOnCount
  let updatedSubbedOffCount : ℕ :=
    if sourceLocation = Location.field ∧ targetLocation = Location.bench then
      p.subbedOffCount + 1
    else p.subbedOffCount
  { p with
    location := targetLocation
    position := if targetLocation = Location.field then newPosition else none
    playtimeSeconds := banked.1
    playtimerStartTime := updatedStartTime
    subbedOnCount := updatedSubbedOnCount
    subbedOffCount := updatedSubbedOffCount }

/-- Replace the first entry whose id is `pid` by its image under `f`,
returning `none` when no entry matches.  This models the source's
`findIndex` followed by an index assignment (and its early return when
`findIndex` yields `-1`). -/
def updateFirstById (pid : String) (f : PlayerLineupState → PlayerLineupState) :
    List PlayerLineupState → Option (List PlayerLineupState)
  | [] => none
  | q :: rest =>
      if q.id = pid then some (f q :: rest)
      else (updateFirstById pid f rest).map (fun l => q :: l)

/-- Game-level `movePlayerInGame` of the source: looks up the player in
the lineup and applies the core transition; the game is returned
unchanged when it has no lineup or the player is absent. -/
def movePlayerInGame (now : ℕ) (g : Game) (playerId : String)
    (sourceLocation targetLocation : Location) (newPosition : Option Pos) : Game :=
  match g.lineup with
  | none => g
  | some lineup =>
      match updateFirstById playerId
          (movePlayerCore (g.timerStatus = TimerStatus.running) now
            sourceLocation targetLocation newPosition) lineup with
      | none => g
      | some newLineup => { g with lineup := some newLineup }

/-- The source's `startGameTimer` body for the matched game: guarded only
by `!g.isExplicitlyFinished`; updates date/time to the current ones, sets
the clock running from `now`, overwrites every field player's
`playtimerStartTime` with `now`, and on a fresh start (banked elapsed
seconds equal to zero) sets every entry's `isStarter` to whether the
entry is on field. -/
def startGameTimer (now : ℕ) (currentDate currentTime : String) (g : Game) : Game :=
  if g.isExplicitlyFinished then g
  else
    let isStartingFresh := g.timerElapsedSeconds = 0
    let newLineup := g.lineup.map (fun l => l.map (fun p =>
      let isFieldPlayer := p.location = Location.field
      { p with
        playtimerStartTime := if isFieldPlayer then some now else p.playtimerStartTime
        isStarter := if isStartingFresh then decide isFieldPlayer else p.isStarter }))
    { g with
      date := currentDate
      time := currentTime
      timerStatus := TimerStatus.running
      timerStartTime := some now
      isExplicitlyFinished := false
      lineup := newLineup }

/-- The source's `stopGameTimer` body for the matched game: only acts when
the clock is running with a truthy recorded start (`&& g.timerStartTime`,
so a zero start is falsy and skipped); banks the main elapsed time and
banks-and-clears the timer of every field or inactive entry with a
truthy (non-null, nonzero) `playtimerStartTime`. -/
def stopGameTimer (now : ℕ) (g : Game) : Game :=
  match g.timerStatus, g.timerStartTime with
  | TimerStatus.running, some startT =>
      if startT = 0 then g
      else
        let newElapsedSeconds : ℤ :=
          round ((g.timerElapsedSeconds : ℚ) + ((now : ℚ) - (startT : ℚ)) / 1000)
        let newLineup := g.lineup.map (fun l => l.map (fun p =>
          match p.playtimerStartTime with
          | some s =>
              if (p.location = Location.field ∨ p.location = Location.inactive)
                  ∧ s ≠ 0 then
                { p with playtimeSeconds := roundedPlaytime p.playtimeSeconds s now
                         playtimerStartTime := none }
              else p
          | none => p))
        { g with
          timerStatus := TimerStatus.stopped
          timerStartTime := none
          timerElapsedSeconds := newElapsedSeconds
          lineup := newLineup }
  | _, _ => g

/-- The source's `startPlayerTimerInGame` body for the matched game:
requires the game clock to be running, then sets `playtimerStartTime`
to `now` only for the named player and only when that player is on
field with a falsy start time (`!p.playtimerStartTime` in JavaScript is
true both for null and for 0, so a zero start time counts as unset and
is overwritten). -/
def startPlayerTimerInGame (now : ℕ) (g : Game) (playerId : String) : Game :=
  match g.lineup with
  | none => g
  | some l =>
      if g.timerStatus = TimerStatus.running then
        { g with lineup := some (l.map (fun p =>
            if p.id = playerId ∧ p.location = Location.field
                ∧ (p.playtimerStartTime = none ∨ p.playtimerStartTime = some 0)
            then { p with playtimerStartTime := some now }
            else p)) }
      else g

/-- Raw persisted lineup record as read back from localStorage: every
field other than the identity may be missing or ill-typed, modelled as
an `Option` (with `none` standing both for an absent field and for a
value of the wrong JSON type, which the source treats identically via
its `typeof` checks).  A raw `location` outside the three known strings
is likewise any `String`. -/
structure RawLineupEntry where
  id : String
  location : Option String
  position : Option Pos
  playtimeSeconds : Option ℤ
  playtimerStartTime : Option ℕ
  isStarter : Option Bool
  subbedOnCount : Option ℕ
  subbedOffCount : Option ℕ
deriving DecidableEq, Repr

/-- Per-entry defaulting performed by `loadFromLocalStorage` on a game's
lineup: unknown locations default to bench, numeric and boolean fields
default to 0 / null / false, and `position` is kept exactly as stored
(the source comment reads: keep position as is, undefined is
acceptable). -/
def sanitizeLineupEntry (r : RawLineupEntry) : PlayerLineupState :=
  { id := r.id
    location :=
      match r.location with
      | some "field" => Location.field
      | some "bench" => Location.bench
      | some "inactive" => Location.inactive
      | _ => Location.bench
    position := r.position
    playtimeSeconds := r.playtimeSeconds.getD 0
    playtimerStartTime := r.playtimerStartTime
    isStarter := r.isStarter.getD false
    subbedOnCount := r.subbedOnCount.getD 0
    subbedOffCount := r.subbedOffCount.getD 0 }

/-- Lineup-level deserialization: entries whose identity is missing (an
empty/falsy `id`) are dropped, the rest are defaulted. -/
def sanitizeLineup (l : List RawLineupEntry) : List PlayerLineupState :=
  (l.filter (fun r => r.id ≠ "")).map sanitizeLineupEntry

/-- A staged substitution plan value: the field occupant to replace and
the (optional) field position recorded when the plan was staged. -/
structure PlannedSwap where
  targetFieldPlayerId : String
  targetPosition : Option Pos
deriving DecidableEq, Repr

/-- The GamePage planner working state: the `isPlanningSubs` flag and the
insertion-ordered `plannedSwaps` map from bench player id to its staged
swap, modelled as an association list. -/
structure PlannerState where
  isPlanningSubs : Bool
  plannedSwaps : List (String × PlannedSwap)
deriving DecidableEq, Repr

/-- Keys of the staged-plan map (bench player ids). -/
def planKeys (m : List (String × PlannedSwap)) : List String :=
  m.map Prod.fst

/-- Target field player ids of the staged-plan map. -/
def planTargets (m : List (String × PlannedSwap)) : List String :=
  m.map (fun kv => kv.2.targetFieldPlayerId)

/-- Remove the first plan entry targeting `targetId`, as the source's
`Array.from(newMap.entries()).find(...)` followed by a single
`Map.delete` of the found key. -/
def eraseFirstTargetPlan (targetId : String) :
    List (String × PlannedSwap) → List (String × PlannedSwap)
  | [] => []
  | kv :: rest =>
      if kv.2.targetFieldPlayerId = targetId then rest
      else kv :: eraseFirstTargetPlan targetId rest

/-- Remove the first plan entry keyed by `pid`: `Map.delete`, whose keys
are unique, so removing the first occurrence removes the only one. -/
def eraseKeyPlan (pid : String) :
    List (String × PlannedSwap) → List (String × PlannedSwap)
  | [] => []
  | kv :: rest =>
      if kv.1 = pid then rest
      else kv :: eraseKeyPlan pid rest

/-- The source's `handlePlanDrop`: drop any prior plan targeting the same
field slot, drop any prior plan of the dragged bench player, then record
the new plan (a fresh `Map.set` appends at the end in insertion order). -/
def handlePlanDrop (draggedPlayerId targetPlayerId : String)
    (targetPosition : Option Pos)
    (m : List (String × PlannedSwap)) : List (String × PlannedSwap) :=
  eraseKeyPlan draggedPlayerId (eraseFirstTargetPlan targetPlayerId m)
    ++ [(draggedPlayerId, ⟨targetPlayerId, targetPosition⟩)]

/-- Look up a bench player's staged plan. -/
def lookupPlan (pid : String) (m : List (String × PlannedSwap)) : Option PlannedSwap :=
  (m.find? (fun kv => kv.1 = pid)).map Prod.snd

/-- Fold a sequence of `handlePlanDrop` operations (dragged id, target id,
target position) over a plan map, earliest operation first. -/
def runPlanDrops : List (String × String × Option Pos) →
    List (String × PlannedSwap) → List (String × PlannedSwap)
  | [], m => m
  | op :: ops, m => runPlanDrops ops (handlePlanDrop op.1 op.2.1 op.2.2 m)

/-- The invariant claimed for the staged-plan map: bench player ids occur
at most once as keys and field player ids at most once as targets. -/
def planInvariant (m : List (String × PlannedSwap)) : Prop :=
  (planKeys m).Nodup ∧ (planTargets m).Nodup

/-- The source's `handleConfirmPlan`: for every staged pair, first move
the field occupant to bench, then move the bench player to field at the
staged position; finally leave planning mode with the plan map cleared. -/
def handleConfirmPlan (now : ℕ) (g : Game) (st : PlannerState) : Game × PlannerState :=
  let g2 := st.plannedSwaps.foldl (fun acc kv =>
    let g1 := movePlayerInGame now acc kv.2.targetFieldPlayerId
      Location.field Location.bench none
    movePlayerInGame now g1 kv.1 Location.bench Location.field kv.2.targetPosition) g
  (g2, ⟨false, []⟩)

/-- The source's `handleCancelPlan`: leave planning mode and clear the
plan map without touching the game state. -/
def handleCancelPlan (g : Game) (_st : PlannerState) : Game × PlannerState :=
  (g, ⟨false, []⟩)

/-- One call in a single-entry trace of `movePlayerInGame`: the game
clock status at call time, the call timestamp, and the target of the
move.  The source location passed to the call is the entry's current
stored location (a truthful caller). -/
structure MoveCall where
  isRunning : Bool
  now : ℕ
  target : Location
  pos : Option Pos
deriving DecidableEq, Repr

/-- Run a sequence of truthful-source moves against one lineup entry. -/
def applyMoves : PlayerLineupState → List MoveCall → PlayerLineupState
  | p, [] => p
  | p, c :: cs =>
      applyMoves (movePlayerCore c.isRunning c.now p.location c.target c.pos p) cs

/-- Number of bench-to-field transitions an entry undergoes along a
truthful-source trace. -/
def countBenchToField : PlayerLineupState → List MoveCall → ℕ
  | _, [] => 0
  | p, c :: cs =>
      (if p.location = Location.bench ∧ c.target = Location.field then 1 else 0)
        + countBenchToField (movePlayerCore c.isRunning c.now p.location c.target c.pos p) cs

/-- Number of field-to-bench transitions an entry undergoes along a
truthful-source trace. -/
def countFieldToBench : PlayerLineupState → List MoveCall → ℕ
  | _, [] => 0
  | p, c :: cs =>
      (if p.location = Location.field ∧ c.target = Location.bench then 1 else 0)
        + countFieldToBench (movePlayerCore c.isRunning c.now p.location c.target c.pos p) cs

/-- Find a player's lineup entry by id (the source's
`lineup.find(p => p.id === playerId)` lookups). -/
def lookupEntry (pid : String) (l : List PlayerLineupState) : Option PlayerLineupState :=
  l.find? (fun p => p.id = pid)

/-- A fresh bench entry with zeroed defaults, as built by
`createDefaultLineup`. -/
def defaultEntry (i : String) : PlayerLineupState :=
  { id := i
    location := Location.bench
    position := none
    playtimeSeconds := 0
    playtimerStartTime := none
    isStarter := false
    subbedOnCount := 0
    subbedOffCount := 0 }

/-- A field entry at a given position with otherwise zeroed defaults. -/
def fieldEntry (i : String) (pos : Pos) : PlayerLineupState :=
  { defaultEntry i with location := Location.field, position := some pos }

/-- A concrete game used by witnesses and counterexamples. -/
def mkGame (ts : TimerStatus) (tst : Option ℕ) (elapsed : ℤ) (fin : Bool)
    (l : Option (List PlayerLineupState)) : Game :=
  { id := "g1"
    opponent := "Rivals"
    date := "2026-01-01"
    time := "10:00"
    venue := GameVenue.home
    homeScore := 0
    awayScore := 0
    timerStatus := ts
    timerStartTime := tst
    timerElapsedSeconds := elapsed
    isExplicitlyFinished := fin
    lineup := l }

/-!  Concrete sample data used by counterexamples and witnesses.  -/

def storedBenchWithPos : RawLineupEntry :=
  { id := "p1"
    location := some "bench"
    position := some ⟨10, 20⟩
    playtimeSeconds := none
    playtimerStartTime := none
    isStarter := none
    subbedOnCount := none
    subbedOffCount := none }

def movesW2 : List MoveCall :=
  [⟨true, 1000, Location.field, some ⟨50, 50⟩⟩, ⟨true, 31000, Location.bench, none⟩]

def gameRunning5000 : Game :=
  mkGame TimerStatus.running (some 5000) 7 false (some [])

def gameFinished : Game :=
  mkGame TimerStatus.stopped none 10 true (some [])

def entryFieldTimer5000 : PlayerLineupState :=
  { fieldEntry "p1" ⟨50, 50⟩ with playtimerStartTime := some 5000 }

def gameFieldTimer : Game :=
  mkGame TimerStatus.stopped none 7 false (some [entryFieldTimer5000])

def benchStarterEntry : PlayerLineupState :=
  { defaultEntry "p1" with isStarter := true }

def gameColdBenchStarter : Game :=
  mkGame TimerStatus.stopped none 0 false (some [benchStarterEntry])

def fieldTimer1000Entry : PlayerLineupState :=
  { fieldEntry "p9" ⟨50, 50⟩ with playtimerStartTime := some 1000 }

def fieldTimer2000Entry : PlayerLineupState :=
  { fieldEntry "pa" ⟨30, 30⟩ with playtimerStartTime := some 2000 }

def movesW8 : List MoveCall :=
  [⟨true, 30000, Location.bench, none⟩]

def entryFieldTimer0 : PlayerLineupState :=
  { fieldEntry "p0" ⟨40, 40⟩ with playtimerStartTime := some 0 }

def gameFieldTimer0Running : Game :=
  mkGame TimerStatus.running (some 5000) 7 false (some [entryFieldTimer0])

def planGameLineup : List PlayerLineupState :=
  [defaultEntry "A", defaultEntry "B", fieldEntry "X" ⟨10, 10⟩, fieldEntry "Y" ⟨90, 90⟩]

def planGame : Game :=
  mkGame TimerStatus.stopped none 7 false (some planGameLineup)

/-!  Helper lemmas about the embedded operations.  -/

lemma movePlayerCore_id (r : Bool) (n : ℕ) (src tgt : Location) (pos : Option Pos)
    (p : PlayerLineupState) : (movePlayerCore r n src tgt pos p).id = p.id := rfl

lemma movePlayerCore_location (r : Bool) (n : ℕ) (src tgt : Location) (pos : Option Pos)
    (p : PlayerLineupState) : (movePlayerCore r n src tgt pos p).location = tgt := rfl

lemma movePlayerCore_position (r : Bool) (n : ℕ) (src tgt : Location) (pos : Option Pos)
    (p : PlayerLineupState) :
    (movePlayerCore r n src tgt pos p).position
      = if tgt = Location.field then pos else none := rfl

lemma movePlayerCore_subbedOnCount (r : Bool) (n : ℕ) (src tgt : Location) (pos : Option Pos)
    (p : PlayerLineupState) :
    (movePlayerCore r n src tgt pos p).subbedOnCount
      = if src = Location.bench ∧ tgt = Location.field then p.subbedOnCount + 1
        else p.subbedOnCount := rfl

lemma movePlayerCore_subbedOffCount (r : Bool) (n : ℕ) (src tgt : Location) (pos : Option Pos)
    (p : PlayerLineupState) :
    (movePlayerCore r n src tgt pos p).subbedOffCount
      = if src = Location.field ∧ tgt = Location.bench then p.subbedOffCount + 1
        else p.subbedOffCount := rfl

lemma movePlayerCore_playtime_none (r : Bool) (n : ℕ) (src tgt : Location) (pos : Option Pos)
    (p : PlayerLineupState) (h : p.playtimerStartTime = none) :
    (movePlayerCore r n src tgt pos p).playtimeSeconds = p.playtimeSeconds := by
  simp [movePlayerCore, h]

lemma movePlayerCore_playtime_bank (r : Bool) (n : ℕ) (src tgt : Location) (pos : Option Pos)
    (p : PlayerLineupState) (s : ℕ) (h : p.playtimerStartTime = some s)
    (hs : src = Location.field ∨ src = Location.inactive) (hz : s ≠ 0) :
    (movePlayerCore r n src tgt pos p).playtimeSeconds
      = roundedPlaytime p.playtimeSeconds s n := by
  simp [movePlayerCore, h, hs, hz]

lemma movePlayerCore_playtime_nobank (r : Bool) (n : ℕ) (src tgt : Location) (pos : Option Pos)
    (p : PlayerLineupState) (s : ℕ) (h : p.playtimerStartTime = some s)
    (hs : ¬((src = Location.field ∨ src = Location.inactive) ∧ s ≠ 0)) :
    (movePlayerCore r n src tgt pos p).playtimeSeconds = p.playtimeSeconds := by
  simp only [movePlayerCore, h]
  rw [if_neg hs]

lemma movePlayerCore_start_cases (r : Bool) (n : ℕ) (src tgt : Location) (pos : Option Pos)
    (p : PlayerLineupState) (t : ℕ)
    (h : (movePlayerCore r n src tgt pos p).playtimerStartTime = some t) :
    t = n ∨ p.playtimerStartTime = some t := by
  cases hp : p.playtimerStartTime with
  | none =>
      by_cases ht : tgt = Location.field <;> cases r <;> simp_all [movePlayerCore]
  | some s =>
      by_cases hz : s = 0 <;>
        cases src <;> cases tgt <;> cases r <;>
        simp_all [movePlayerCore]


lemma roundedPlaytime_eq_add_round (p : ℤ) (s n : ℕ) :
    roundedPlaytime p s n = p + round (((n : ℚ) - (s : ℚ)) / 1000) := by
  unfold roundedPlaytime
  exact round_int_add (((n : ℚ) - (s : ℚ)) / 1000) p

lemma le_roundedPlaytime (p : ℤ) (s n : ℕ) (h : s ≤ n) :
    p ≤ roundedPlaytime p s n := by
  rw [roundedPlaytime_eq_add_round]
  have hn : (s : ℚ) ≤ (n : ℚ) := by exact_mod_cast h
  have h0 : (0 : ℤ) ≤ round (((n : ℚ) - (s : ℚ)) / 1000) := by
    rw [round_eq]
    apply Int.floor_nonneg.mpr
    linarith
  linarith

lemma movePlayerCore_playtime_ge (r : Bool) (n : ℕ) (src tgt : Location) (pos : Option Pos)
    (p : PlayerLineupState) (h : ∀ s, p.playtimerStartTime = some s → s ≤ n) :
    p.playtimeSeconds ≤ (movePlayerCore r n src tgt pos p).playtimeSeconds := by
  cases hp : p.playtimerStartTime with
  | none => rw [movePlayerCore_playtime_none r n src tgt pos p hp]
  | some s =>
      by_cases hs : (src = Location.field ∨ src = Location.inactive) ∧ s ≠ 0
      · rw [movePlayerCore_playtime_bank r n src tgt pos p s hp hs.1 hs.2]
        exact le_roundedPlaytime _ _ _ (h s hp)
      · rw [movePlayerCore_playtime_nobank r n src tgt pos p s hp hs]

lemma updateFirstById_exists (pid : String) (f : PlayerLineupState → PlayerLineupState)
    (l : List PlayerLineupState) (e : PlayerLineupState)
    (h : lookupEntry pid l = some e) :
    ∃ l2, updateFirstById pid f l = some l2 := by
  induction l with
  | nil => simp [lookupEntry] at h
  | cons q rest ih =>
      by_cases hq : q.id = pid
      · exact ⟨f q :: rest, by simp [updateFirstById, hq]⟩
      · have h2 : lookupEntry pid rest = some e := by
          simpa [lookupEntry, List.find?_cons, hq] using h
        obtain ⟨l2, hl2⟩ := ih h2
        exact ⟨q :: l2, by simp [updateFirstById, hq, hl2]⟩

lemma lookupEntry_updateFirstById_self (pid : String)
    (f : PlayerLineupState → PlayerLineupState) (hf : ∀ q, (f q).id = q.id) :
    ∀ (l l2 : List PlayerLineupState), updateFirstById pid f l = some l2 →
      lookupEntry pid l2 = (lookupEntry pid l).map f := by
  intro l
  induction l with
  | nil => intro l2 h; simp [updateFirstById] at h
  | cons q rest ih =>
      intro l2 h
      by_cases hq : q.id = pid
      · simp [updateFirstById, hq] at h
        subst h
        simp [lookupEntry, List.find?_cons, hf q, hq]
      · simp [updateFirstById, hq] at h
        obtain ⟨rest2, hrest2, hl2⟩ := h
        subst hl2
        simp [lookupEntry, List.find?_cons, hq]
        exact ih rest2 hrest2

lemma lookupEntry_updateFirstById_other (pid qid : String)
    (f : PlayerLineupState → PlayerLineupState) (hf : ∀ q, (f q).id = q.id)
    (hne : qid ≠ pid) :
    ∀ (l l2 : List PlayerLineupState), updateFirstById pid f l = some l2 →
      lookupEntry qid l2 = lookupEntry qid l := by
  intro l
  induction l with
  | nil => intro l2 h; simp [updateFirstById] at h
  | cons q rest ih =>
      intro l2 h
      by_cases hq : q.id = pid
      · simp [updateFirstById, hq] at h
        subst h
        have hfq : (f q).id = q.id := hf q
        by_cases hqq : q.id = qid
        · exact absurd (hqq.symm.trans hq) hne
        · simp [lookupEntry, List.find?_cons, hfq, hqq]
      · simp [updateFirstById, hq] at h
        obtain ⟨rest2, hrest2, hl2⟩ := h
        subst hl2
        by_cases hqq : q.id = qid
        · simp [lookupEntry, List.find?_cons, hqq]
        · simp [lookupEntry, List.find?_cons, hqq]
          exact ih rest2 hrest2


lemma movePlayerInGame_lookup (now : ℕ) (g : Game) (l : List PlayerLineupState)
    (pid : String) (src tgt : Location) (pos : Option Pos) (e : PlayerLineupState)
    (hg : g.lineup = some l) (he : lookupEntry pid l = some e) :
    ∃ l2, (movePlayerInGame now g pid src tgt pos).lineup = some l2
      ∧ (movePlayerInGame now g pid src tgt pos).timerStatus = g.timerStatus
      ∧ lookupEntry pid l2
          = some (movePlayerCore (g.timerStatus = TimerStatus.running) now src tgt pos e)
      ∧ ∀ qid, qid ≠ pid → lookupEntry qid l2 = lookupEntry qid l := by
  set f := movePlayerCore (g.timerStatus = TimerStatus.running) now src tgt pos with hfdef
  have hf : ∀ q, (f q).id = q.id := fun q => movePlayerCore_id _ _ _ _ _ q
  obtain ⟨l2, hl2⟩ := updateFirstById_exists pid f l e he
  refine ⟨l2, ?_, ?_, ?_, ?_⟩
  · simp [movePlayerInGame, hg, hl2]
  · simp [movePlayerInGame, hg, hl2]
  · rw [lookupEntry_updateFirstById_self pid f hf l l2 hl2, he, Option.map_some']
  · intro qid hq
    exact lookupEntry_updateFirstById_other pid qid f hf hq l l2 hl2


lemma eraseFirstTargetPlan_sublist (t : String) (m : List (String × PlannedSwap)) :
    (eraseFirstTargetPlan t m).Sublist m := by
  induction m with
  | nil => simp [eraseFirstTargetPlan]
  | cons kv rest ih =>
      by_cases h : kv.2.targetFieldPlayerId = t
      · rw [eraseFirstTargetPlan, if_pos h]
        exact List.sublist_cons_self kv rest
      · rw [eraseFirstTargetPlan, if_neg h]
        exact List.Sublist.cons₂ kv ih

lemma eraseKeyPlan_sublist (k : String) (m : List (String × PlannedSwap)) :
    (eraseKeyPlan k m).Sublist m := by
  induction m with
  | nil => simp [eraseKeyPlan]
  | cons kv rest ih =>
      by_cases h : kv.1 = k
      · rw [eraseKeyPlan, if_pos h]
        exact List.sublist_cons_self kv rest
      · rw [eraseKeyPlan, if_neg h]
        exact List.Sublist.cons₂ kv ih

lemma planKeys_sublist {m1 m2 : List (String × PlannedSwap)} (h : m1.Sublist m2) :
    (planKeys m1).Sublist (planKeys m2) := List.Sublist.map _ h

lemma planTargets_sublist {m1 m2 : List (String × PlannedSwap)} (h : m1.Sublist m2) :
    (planTargets m1).Sublist (planTargets m2) := List.Sublist.map _ h

lemma not_mem_keys_eraseKey (k : String) (m : List (String × PlannedSwap))
    (h : (planKeys m).Nodup) : k ∉ planKeys (eraseKeyPlan k m) := by
  induction m with
  | nil => simp [eraseKeyPlan, planKeys]
  | cons kv rest ih =>
      rw [planKeys, List.map_cons, List.nodup_cons] at h
      obtain ⟨h1, h2⟩ := h
      by_cases hk : kv.1 = k
      · rw [eraseKeyPlan, if_pos hk]
        exact fun hmem => h1 (hk ▸ hmem)
      · rw [eraseKeyPlan, if_neg hk]
        intro hmem
        rw [planKeys, List.map_cons, List.mem_cons] at hmem
        rcases hmem with hmem | hmem
        · exact hk hmem.symm
        · exact ih h2 hmem

lemma not_mem_targets_eraseTarget (t : String) (m : List (String × PlannedSwap))
    (h : (planTargets m).Nodup) : t ∉ planTargets (eraseFirstTargetPlan t m) := by
  induction m with
  | nil => simp [eraseFirstTargetPlan, planTargets]
  | cons kv rest ih =>
      rw [planTargets, List.map_cons, List.nodup_cons] at h
      obtain ⟨h1, h2⟩ := h
      by_cases hk : kv.2.targetFieldPlayerId = t
      · rw [eraseFirstTargetPlan, if_pos hk]
        exact fun hmem => h1 (hk ▸ hmem)
      · rw [eraseFirstTargetPlan, if_neg hk]
        intro hmem
        rw [planTargets, List.map_cons, List.mem_cons] at hmem
        rcases hmem with hmem | hmem
        · exact hk hmem.symm
        · exact ih h2 hmem

lemma planKeys_append (m1 m2 : List (String × PlannedSwap)) :
    planKeys (m1 ++ m2) = planKeys m1 ++ planKeys m2 := List.map_append _ _ _

lemma planTargets_append (m1 m2 : List (String × PlannedSwap)) :
    planTargets (m1 ++ m2) = planTargets m1 ++ planTargets m2 := List.map_append _ _ _

lemma planInvariant_handlePlanDrop (d t : String) (pos : Option Pos)
    (m : List (String × PlannedSwap)) (h : planInvariant m) :
    planInvariant (handlePlanDrop d t pos m) := by
  obtain ⟨hk, ht⟩ := h
  have hsub1 : (eraseFirstTargetPlan t m).Sublist m := eraseFirstTargetPlan_sublist t m
  have hsub2 : (eraseKeyPlan d (eraseFirstTargetPlan t m)).Sublist (eraseFirstTargetPlan t m) :=
    eraseKeyPlan_sublist d _
  have hk1 : (planKeys (eraseFirstTargetPlan t m)).Nodup :=
    hk.sublist (planKeys_sublist hsub1)
  have hk2 : (planKeys (eraseKeyPlan d (eraseFirstTargetPlan t m))).Nodup :=
    hk1.sublist (planKeys_sublist hsub2)
  have ht1 : (planTargets (eraseFirstTargetPlan t m)).Nodup :=
    ht.sublist (planTargets_sublist hsub1)
  have ht2 : (planTargets (eraseKeyPlan d (eraseFirstTargetPlan t m))).Nodup :=
    ht1.sublist (planTargets_sublist hsub2)
  have hdk : d ∉ planKeys (eraseKeyPlan d (eraseFirstTargetPlan t m)) :=
    not_mem_keys_eraseKey d _ hk1
  have hdt : t ∉ planTargets (eraseKeyPlan d (eraseFirstTargetPlan t m)) := by
    intro hmem
    exact not_mem_targets_eraseTarget t m ht ((planTargets_sublist hsub2).subset hmem)
  constructor
  · rw [handlePlanDrop, planKeys_append, List.nodup_append]
    refine ⟨hk2, List.nodup_singleton d, ?_⟩
    exact List.disjoint_singleton.mpr hdk
  · rw [handlePlanDrop, planTargets_append, List.nodup_append]
    refine ⟨ht2, List.nodup_singleton t, ?_⟩
    exact List.disjoint_singleton.mpr hdt

lemma planInvariant_nil : planInvariant [] := by
  constructor <;> simp [planKeys, planTargets]

lemma planInvariant_runPlanDrops (ops : List (String × String × Option Pos)) :
    ∀ m, planInvariant m → planInvariant (runPlanDrops ops m) := by
  induction ops with
  | nil => intro m h; simpa [runPlanDrops] using h
  | cons op ops ih =>
      intro m h
      rw [runPlanDrops]
      exact ih _ (planInvariant_handlePlanDrop op.1 op.2.1 op.2.2 m h)

lemma lookupPlan_none_of_not_mem_keys (k : String) (m : List (String × PlannedSwap))
    (h : k ∉ planKeys m) : lookupPlan k m = none := by
  induction m with
  | nil => rfl
  | cons kv rest ih =>
      rw [planKeys, List.map_cons] at h
      have h1 : kv.1 ≠ k := fun hh => h (hh ▸ List.mem_cons_self _ _)
      have h2 : k ∉ planKeys rest := fun hh => h (List.mem_cons_of_mem _ hh)
      unfold lookupPlan
      rw [List.find?_cons_of_neg _ (by simp [h1])]
      exact ih h2

lemma lookupPlan_append_left_none (k : String) (m1 m2 : List (String × PlannedSwap))
    (h : lookupPlan k m1 = none) : lookupPlan k (m1 ++ m2) = lookupPlan k m2 := by
  induction m1 with
  | nil => simp
  | cons kv rest ih =>
      by_cases hk : kv.1 = k
      · unfold lookupPlan at h
        rw [List.find?_cons_of_pos _ (by simp [hk])] at h
        simp at h
      · unfold lookupPlan at h ⊢
        rw [List.find?_cons_of_neg _ (by simp [hk])] at h
        rw [List.cons_append, List.find?_cons_of_neg _ (by simp [hk])]
        exact ih h

lemma eraseFirstTargetPlan_append_singleton (t k : String) (pos : Option Pos)
    (m : List (String × PlannedSwap)) (h : t ∉ planTargets m) :
    eraseFirstTargetPlan t (m ++ [(k, ⟨t, pos⟩)]) = m := by
  induction m with
  | nil => simp [eraseFirstTargetPlan]
  | cons kv rest ih =>
      rw [planTargets, List.map_cons] at h
      have h1 : kv.2.targetFieldPlayerId ≠ t := fun hh => h (hh ▸ List.mem_cons_self _ _)
      have h2 : t ∉ planTargets rest := fun hh => h (List.mem_cons_of_mem _ hh)
      rw [List.cons_append, eraseFirstTargetPlan, if_neg h1]
      rw [ih h2]

lemma startGameTimer_lineup_map (now : ℕ) (d t : String) (g : Game)
    (l : List PlayerLineupState)
    (hfin : g.isExplicitlyFinished = false) (hg : g.lineup = some l) :
    (startGameTimer now d t g).lineup = some (l.map (fun p =>
      { p with
        playtimerStartTime :=
          if p.location = Location.field then some now else p.playtimerStartTime
        isStarter :=
          if g.timerElapsedSeconds = 0 then decide (p.location = Location.field)
          else p.isStarter })) := by
  simp [startGameTimer, hfin, hg]

lemma startPlayerTimerInGame_lineup_map (now : ℕ) (g : Game) (pid : String)
    (l : List PlayerLineupState)
    (hrun : g.timerStatus = TimerStatus.running) (hg : g.lineup = some l) :
    (startPlayerTimerInGame now g pid).lineup = some (l.map (fun p =>
      if p.id = pid ∧ p.location = Location.field
          ∧ (p.playtimerStartTime = none ∨ p.playtimerStartTime = some 0)
      then { p with playtimerStartTime := some now } else p)) := by
  simp [startPlayerTimerInGame, hg, hrun]

lemma startPlayerTimerInGame_not_running (now : ℕ) (g : Game) (pid : String)
    (hrun : ¬ g.timerStatus = TimerStatus.running) :
    startPlayerTimerInGame now g pid = g := by
  cases hl : g.lineup <;> simp [startPlayerTimerInGame, hl, hrun]

/-!  Theorems settling the claims.  -/

/-- Claim C1 (counterexample): deserializing a persisted entry stored with
location bench and a defined position yields a lineup entry that is off
field yet keeps its position, so position-defined-iff-on-field does not
hold at every reachable state. -/
theorem position_iff_location_counterexample :
    (sanitizeLineup [storedBenchWithPos]).map (fun e => (e.location, e.position))
      = [(Location.bench, some ⟨10, 20⟩)]
    ∧ ¬ (∀ e ∈ sanitizeLineup [storedBenchWithPos],
          (e.position ≠ none ↔ e.location = Location.field)) := by
  decide

/-- Claim C1 (amended): every move with a non-field target clears position,
and a move with target field sets position to exactly the
caller-supplied coordinate, which may be absent; deserialization keeps
the stored position unchanged regardless of the entry's location. -/
theorem move_position_amended :
    (∀ (r : Bool) (n : ℕ) (src tgt : Location) (pos : Option Pos) (p : PlayerLineupState),
        (movePlayerCore r n src tgt pos p).position
          = if tgt = Location.field then pos else none)
    ∧ (∀ re : RawLineupEntry, (sanitizeLineupEntry re).position = re.position) :=
  ⟨fun r n src tgt pos p => movePlayerCore_position r n src tgt pos p,
   fun _ => rfl⟩

/-- Claim C1 (witness): the amended statement instantiated at a concrete
move to inactive and at the concrete stored entry. -/
theorem move_position_amended_witness :
    (movePlayerCore true 1000 Location.bench Location.inactive (some ⟨1, 2⟩)
        (defaultEntry "w1")).position = none
    ∧ (sanitizeLineupEntry storedBenchWithPos).position = some ⟨10, 20⟩ := by
  constructor
  · exact move_position_amended.1 true 1000 Location.bench Location.inactive
      (some ⟨1, 2⟩) (defaultEntry "w1")
  · exact move_position_amended.2 storedBenchWithPos

/-- Claim C2: along any truthful-source sequence of moves, subbedOnCount
grows by exactly the number of bench-to-field transitions and
subbedOffCount by exactly the number of field-to-bench transitions; and
a single move whose source or target is inactive, or whose source equals
its target, changes neither counter. -/
theorem subcounters_count_transitions :
    (∀ (p : PlayerLineupState) (cs : List MoveCall),
        (applyMoves p cs).subbedOnCount = p.subbedOnCount + countBenchToField p cs
        ∧ (applyMoves p cs).subbedOffCount = p.subbedOffCount + countFieldToBench p cs)
    ∧ (∀ (r : Bool) (n : ℕ) (src tgt : Location) (pos : Option Pos) (p : PlayerLineupState),
        src = Location.inactive ∨ tgt = Location.inactive ∨ src = tgt →
          (movePlayerCore r n src tgt pos p).subbedOnCount = p.subbedOnCount
          ∧ (movePlayerCore r n src tgt pos p).subbedOffCount = p.subbedOffCount) := by
  constructor
  · intro p cs
    induction cs generalizing p with
    | nil => simp [applyMoves, countBenchToField, countFieldToBench]
    | cons c cs ih =>
        rw [applyMoves, countBenchToField, countFieldToBench]
        obtain ⟨ih1, ih2⟩ := ih (movePlayerCore c.isRunning c.now p.location c.target c.pos p)
        rw [ih1, ih2, movePlayerCore_subbedOnCount, movePlayerCore_subbedOffCount]
        constructor <;> split_ifs <;> omega
  · intro r n src tgt pos p h
    rw [movePlayerCore_subbedOnCount, movePlayerCore_subbedOffCount]
    rcases h with h | h | h
    · subst h
      constructor <;> split_ifs with hh <;> simp_all
    · subst h
      constructor <;> split_ifs with hh <;> simp_all
    · subst h
      constructor <;> split_ifs with hh <;> simp_all
      · exact absurd (hh.1.symm.trans hh.2) (by decide)
      · exact absurd (hh.1.symm.trans hh.2) (by decide)

/-- Claim C2 (witness): the counter bookkeeping instantiated on a concrete
two-move trace and on a concrete move out of inactive. -/
theorem subcounters_count_transitions_witness :
    (Location.inactive = Location.inactive ∨ Location.bench = Location.inactive
      ∨ Location.inactive = Location.bench)
    ∧ (applyMoves (defaultEntry "w2") movesW2).subbedOnCount
        = (defaultEntry "w2").subbedOnCount + countBenchToField (defaultEntry "w2") movesW2
    ∧ (movePlayerCore true 5000 Location.inactive Location.bench none
        (defaultEntry "w2")).subbedOnCount = (defaultEntry "w2").subbedOnCount :=
  ⟨by decide,
   (subcounters_count_transitions.1 (defaultEntry "w2") movesW2).1,
   (subcounters_count_transitions.2 true 5000 Location.inactive Location.bench none
      (defaultEntry "w2") (Or.inl rfl)).1⟩

/-- Claim C3 (counterexample): starting the clock of a concrete game that is
already running and not finished changes its timerStartTime, so the
start is neither a no-op nor rejected. -/
theorem start_while_running_counterexample :
    gameRunning5000.timerStatus = TimerStatus.running
    ∧ gameRunning5000.isExplicitlyFinished = false
    ∧ (startGameTimer 10000 "2026-01-02" "11:00" gameRunning5000).timerStartTime
        ≠ gameRunning5000.timerStartTime := by
  decide

/-- Claim C3 (amended): startGameTimer is a no-op exactly when the game is
finished; on any unfinished game, including one whose clock is already
running, it sets timerStartTime to now, leaves timerElapsedSeconds
unchanged and sets the clock running. -/
theorem startGameTimer_guard_amended :
    (∀ (now : ℕ) (d t : String) (g : Game),
        g.isExplicitlyFinished = true → startGameTimer now d t g = g)
    ∧ (∀ (now : ℕ) (d t : String) (g : Game),
        g.isExplicitlyFinished = false →
          (startGameTimer now d t g).timerStartTime = some now
          ∧ (startGameTimer now d t g).timerElapsedSeconds = g.timerElapsedSeconds
          ∧ (startGameTimer now d t g).timerStatus = TimerStatus.running) := by
  constructor
  · intro now d t g h
    simp [startGameTimer, h]
  · intro now d t g h
    refine ⟨?_, ?_, ?_⟩ <;> simp [startGameTimer, h]

/-- Claim C3 (witness): the amended statement instantiated at a concrete
finished game and at a concrete running game. -/
theorem startGameTimer_guard_amended_witness :
    gameFinished.isExplicitlyFinished = true
    ∧ startGameTimer 10000 "2026-01-02" "11:00" gameFinished = gameFinished
    ∧ gameRunning5000.isExplicitlyFinished = false
    ∧ (startGameTimer 10000 "2026-01-02" "11:00" gameRunning5000).timerStartTime = some 10000 :=
  ⟨by decide,
   startGameTimer_guard_amended.1 10000 "2026-01-02" "11:00" gameFinished (by decide),
   by decide,
   (startGameTimer_guard_amended.2 10000 "2026-01-02" "11:00" gameRunning5000 (by decide)).1⟩

/-- Claim C4 (counterexample): starting the game clock overwrites the
playtimerStartTime of a concrete field entry that already had one,
instead of leaving it unchanged. -/
theorem clockstart_overwrites_player_timer_counterexample :
    entryFieldTimer5000.location = Location.field
    ∧ entryFieldTimer5000.playtimerStartTime = some 5000
    ∧ ((startGameTimer 10000 "2026-01-02" "11:00" gameFieldTimer).lineup.map
        (fun l => l.map PlayerLineupState.playtimerStartTime)) = some [some 10000] := by
  decide

/-- Claim C4 (amended): on clock start every field entry's timer start is
set to now unconditionally, overwriting any prior value, and non-field
entries keep theirs; the only-if-unset behaviour belongs to
startPlayerTimerInGame, which leaves an entry unchanged when its timer
is truthy (set and nonzero, mirroring the falsy test of the source) or
when it is not on field, and overwrites the named field entry's timer
with now when it is falsy (null or 0) and the clock is running. -/
theorem clockstart_playerTimer_amended :
    (∀ (now : ℕ) (d t : String) (g : Game) (l : List PlayerLineupState)
        (i : ℕ) (p : PlayerLineupState),
        g.isExplicitlyFinished = false → g.lineup = some l → l[i]? = some p →
          ∃ l2, (startGameTimer now d t g).lineup = some l2
            ∧ (l2[i]?).map PlayerLineupState.playtimerStartTime
                = some (if p.location = Location.field then some now
                        else p.playtimerStartTime))
    ∧ (∀ (now : ℕ) (g : Game) (pid : String) (l : List PlayerLineupState)
        (i : ℕ) (p : PlayerLineupState) (s : ℕ),
        g.lineup = some l → l[i]? = some p → p.playtimerStartTime = some s → s ≠ 0 →
          ∃ l2, (startPlayerTimerInGame now g pid).lineup = some l2 ∧ l2[i]? = some p)
    ∧ (∀ (now : ℕ) (g : Game) (pid : String) (l : List PlayerLineupState)
        (i : ℕ) (p : PlayerLineupState),
        g.lineup = some l → l[i]? = some p → p.location ≠ Location.field →
          ∃ l2, (startPlayerTimerInGame now g pid).lineup = some l2 ∧ l2[i]? = some p)
    ∧ (∀ (now : ℕ) (g : Game) (pid : String) (l : List PlayerLineupState)
        (i : ℕ) (p : PlayerLineupState),
        g.timerStatus = TimerStatus.running → g.lineup = some l → l[i]? = some p →
        p.id = pid → p.location = Location.field →
        (p.playtimerStartTime = none ∨ p.playtimerStartTime = some 0) →
          ∃ l2, (startPlayerTimerInGame now g pid).lineup = some l2
            ∧ (l2[i]?).map PlayerLineupState.playtimerStartTime = some (some now)) := by
  refine ⟨?_, ?_, ?_, ?_⟩
  · intro now d t g l i p hfin hg hp
    refine ⟨_, startGameTimer_lineup_map now d t g l hfin hg, ?_⟩
    rw [List.getElem?_map, hp, Option.map_some', Option.map_some']
  · intro now g pid l i p s hg hp hs hz
    by_cases hrun : g.timerStatus = TimerStatus.running
    · refine ⟨_, startPlayerTimerInGame_lineup_map now g pid l hrun hg, ?_⟩
      rw [List.getElem?_map, hp, Option.map_some']
      simp [hs, hz]
    · exact ⟨l, by rw [startPlayerTimerInGame_not_running now g pid hrun]; exact hg, hp⟩
  · intro now g pid l i p hg hp hloc
    by_cases hrun : g.timerStatus = TimerStatus.running
    · refine ⟨_, startPlayerTimerInGame_lineup_map now g pid l hrun hg, ?_⟩
      rw [List.getElem?_map, hp, Option.map_some']
      simp [hloc]
    · exact ⟨l, by rw [startPlayerTimerInGame_not_running now g pid hrun]; exact hg, hp⟩
  · intro now g pid l i p hrun hg hp hid hloc hfalsy
    refine ⟨_, startPlayerTimerInGame_lineup_map now g pid l hrun hg, ?_⟩
    rw [List.getElem?_map, hp, Option.map_some']
    simp [hid, hloc, hfalsy]

/-- Claim C4 (witness): the amended statement instantiated at a concrete
game with one field entry whose timer is set and nonzero, and at a
running game whose field entry has the falsy start time 0. -/
theorem clockstart_playerTimer_amended_witness :
    gameFieldTimer.isExplicitlyFinished = false
    ∧ gameFieldTimer.lineup = some [entryFieldTimer5000]
    ∧ (∃ l2, (startGameTimer 10000 "2026-01-02" "11:00" gameFieldTimer).lineup = some l2
        ∧ (l2[0]?).map PlayerLineupState.playtimerStartTime
            = some (if entryFieldTimer5000.location = Location.field then some 10000
                    else entryFieldTimer5000.playtimerStartTime))
    ∧ (∃ l2, (startPlayerTimerInGame 10000 gameFieldTimer "p1").lineup = some l2
        ∧ l2[0]? = some entryFieldTimer5000)
    ∧ (∃ l2, (startPlayerTimerInGame 9000 gameFieldTimer0Running "p0").lineup = some l2
        ∧ (l2[0]?).map PlayerLineupState.playtimerStartTime = some (some 9000)) :=
  ⟨by decide, by decide,
   clockstart_playerTimer_amended.1 10000 "2026-01-02" "11:00" gameFieldTimer
     [entryFieldTimer5000] 0 entryFieldTimer5000 (by decide) (by decide) (by decide),
   clockstart_playerTimer_amended.2.1 10000 gameFieldTimer "p1"
     [entryFieldTimer5000] 0 entryFieldTimer5000 5000 (by decide) (by decide) (by decide)
     (by decide),
   clockstart_playerTimer_amended.2.2.2 9000 gameFieldTimer0Running "p0"
     [entryFieldTimer0] 0 entryFieldTimer0 (by decide) (by decide) (by decide)
     (by decide) (by decide) (by decide)⟩

/-- Claim C7 (counterexample): a cold start sets a concrete bench entry's
previously-true isStarter flag to false rather than leaving it as it
was. -/
theorem coldstart_resets_bench_starter_counterexample :
    gameColdBenchStarter.timerElapsedSeconds = 0
    ∧ benchStarterEntry.location = Location.bench
    ∧ benchStarterEntry.isStarter = true
    ∧ ((startGameTimer 1000 "2026-01-02" "11:00" gameColdBenchStarter).lineup.map
        (fun l => l.map PlayerLineupState.isStarter)) = some [false] := by
  decide

/-- Claim C7 (amended): on a cold start, banked elapsed zero, startGameTimer
sets every entry's isStarter to whether that entry is on field, true for
field entries and false for all others, overwriting prior values; when
banked elapsed is nonzero no entry's isStarter changes. -/
theorem starter_marking_amended :
    ∀ (now : ℕ) (d t : String) (g : Game) (l : List PlayerLineupState)
      (i : ℕ) (p : PlayerLineupState),
      g.isExplicitlyFinished = false → g.lineup = some l → l[i]? = some p →
        ∃ l2, (startGameTimer now d t g).lineup = some l2
          ∧ (g.timerElapsedSeconds = 0 →
              (l2[i]?).map PlayerLineupState.isStarter
                = some (decide (p.location = Location.field)))
          ∧ (g.timerElapsedSeconds ≠ 0 →
              (l2[i]?).map PlayerLineupState.isStarter = some p.isStarter) := by
  intro now d t g l i p hfin hg hp
  refine ⟨_, startGameTimer_lineup_map now d t g l hfin hg, ?_, ?_⟩
  · intro h0
    rw [List.getElem?_map, hp, Option.map_some', Option.map_some']
    simp [h0]
  · intro h0
    rw [List.getElem?_map, hp, Option.map_some', Option.map_some']
    simp [h0]

/-- Claim C7 (witness): the amended statement instantiated at the concrete
cold-start game with a bench starter. -/
theorem starter_marking_amended_witness :
    gameColdBenchStarter.isExplicitlyFinished = false
    ∧ gameColdBenchStarter.lineup = some [benchStarterEntry]
    ∧ (∃ l2, (startGameTimer 1000 "2026-01-02" "11:00" gameColdBenchStarter).lineup = some l2
        ∧ (gameColdBenchStarter.timerElapsedSeconds = 0 →
            (l2[0]?).map PlayerLineupState.isStarter
              = some (decide (benchStarterEntry.location = Location.field)))
        ∧ (gameColdBenchStarter.timerElapsedSeconds ≠ 0 →
            (l2[0]?).map PlayerLineupState.isStarter = some benchStarterEntry.isStarter)) :=
  ⟨by decide, by decide,
   starter_marking_amended 1000 "2026-01-02" "11:00" gameColdBenchStarter
     [benchStarterEntry] 0 benchStarterEntry (by decide) (by decide) (by decide)⟩

/-- Claim C9 (counterexample): a field-to-field move of a concrete entry
with a running timer banks playtime, restarts the timer and moves the
position, so a same-location move is not a silent no-op. -/
theorem same_location_move_counterexample :
    fieldTimer1000Entry.location = Location.field
    ∧ (movePlayerCore true 31000 Location.field Location.field (some ⟨10, 10⟩)
        fieldTimer1000Entry).playtimeSeconds ≠ fieldTimer1000Entry.playtimeSeconds
    ∧ (movePlayerCore true 31000 Location.field Location.field (some ⟨10, 10⟩)
        fieldTimer1000Entry).position ≠ fieldTimer1000Entry.position
    ∧ (movePlayerCore true 31000 Location.field Location.field (some ⟨10, 10⟩)
        fieldTimer1000Entry).playtimerStartTime ≠ fieldTimer1000Entry.playtimerStartTime := by
  have h30 : roundedPlaytime 0 1000 31000 = 30 := by
    norm_num [roundedPlaytime, round_eq]
  have hb : (movePlayerCore true 31000 Location.field Location.field (some ⟨10, 10⟩)
      fieldTimer1000Entry).playtimeSeconds = 30 := by
    rw [movePlayerCore_playtime_bank true 31000 Location.field Location.field
      (some ⟨10, 10⟩) fieldTimer1000Entry 1000 rfl (Or.inl rfl) (by decide)]
    exact h30
  refine ⟨rfl, ?_, ?_, ?_⟩
  · rw [hb]; decide
  · rw [movePlayerCore_position]; decide
  · simp [movePlayerCore, fieldTimer1000Entry, fieldEntry, defaultEntry]

/-- Claim C9 (amended): a same-location move raises no error and never
changes the entry's location or substitution counters; a bench-to-bench
move of an entry with no position and no running timer is a complete
no-op; but a field-to-field move always sets position to the supplied
coordinate, and when the entry's timer is set and nonzero (truthy in the
source) it also banks the elapsed time. -/
theorem same_location_move_amended :
    (∀ (r : Bool) (n : ℕ) (tgt : Location) (pos : Option Pos) (p : PlayerLineupState),
        p.location = tgt →
          (movePlayerCore r n tgt tgt pos p).location = p.location
          ∧ (movePlayerCore r n tgt tgt pos p).subbedOnCount = p.subbedOnCount
          ∧ (movePlayerCore r n tgt tgt pos p).subbedOffCount = p.subbedOffCount)
    ∧ (∀ (r : Bool) (n : ℕ) (pos : Option Pos) (p : PlayerLineupState),
        p.location = Location.bench → p.position = none → p.playtimerStartTime = none →
          movePlayerCore r n Location.bench Location.bench pos p = p)
    ∧ (∀ (r : Bool) (n : ℕ) (pos : Option Pos) (p : PlayerLineupState),
        (movePlayerCore r n Location.field Location.field pos p).position = pos)
    ∧ (∀ (r : Bool) (n : ℕ) (pos : Option Pos) (p : PlayerLineupState) (s : ℕ),
        p.playtimerStartTime = some s → s ≠ 0 →
          (movePlayerCore r n Location.field Location.field pos p).playtimeSeconds
            = roundedPlaytime p.playtimeSeconds s n) := by
  refine ⟨?_, ?_, ?_, ?_⟩
  · intro r n tgt pos p hloc
    refine ⟨?_, ?_, ?_⟩
    · rw [movePlayerCore_location, hloc]
    · rw [movePlayerCore_subbedOnCount]
      split_ifs with h
      · exact absurd (h.1.symm.trans h.2) (by decide)
      · rfl
    · rw [movePlayerCore_subbedOffCount]
      split_ifs with h
      · exact absurd (h.1.symm.trans h.2) (by decide)
      · rfl
  · intro r n pos p hloc hpos hst
    cases p
    simp_all [movePlayerCore]
  · intro r n pos p
    rw [movePlayerCore_position]
    simp
  · intro r n pos p s hst hz
    exact movePlayerCore_playtime_bank r n Location.field Location.field pos p s hst
      (Or.inl rfl) hz

/-- Claim C9 (witness): the amended statement instantiated at a concrete
default bench entry and at a concrete field entry with a running timer. -/
theorem same_location_move_amended_witness :
    (defaultEntry "w9").location = Location.bench
    ∧ (defaultEntry "w9").position = none
    ∧ (defaultEntry "w9").playtimerStartTime = none
    ∧ movePlayerCore true 4000 Location.bench Location.bench none (defaultEntry "w9")
        = defaultEntry "w9"
    ∧ fieldTimer1000Entry.playtimerStartTime = some 1000
    ∧ (movePlayerCore true 31000 Location.field Location.field (some ⟨10, 10⟩)
        fieldTimer1000Entry).position = some ⟨10, 10⟩
    ∧ (movePlayerCore true 31000 Location.field Location.field (some ⟨10, 10⟩)
        fieldTimer1000Entry).playtimeSeconds = roundedPlaytime 0 1000 31000 :=
  ⟨rfl, rfl, rfl,
   same_location_move_amended.2.1 true 4000 none (defaultEntry "w9") rfl rfl rfl,
   rfl,
   same_location_move_amended.2.2.1 true 31000 (some ⟨10, 10⟩) fieldTimer1000Entry,
   same_location_move_amended.2.2.2 true 31000 (some ⟨10, 10⟩) fieldTimer1000Entry 1000
     rfl (by decide)⟩

/-- Claim C10: movePlayerInGame derives its counter and banking effects from
the caller-supplied source location: a call claiming source bench with
target field increments subbedOnCount even when the entry is stored on
field, and skips banking even when the stored timer is running. -/
theorem move_trusts_claimed_source :
    ∀ (r : Bool) (n : ℕ) (pos : Option Pos) (p : PlayerLineupState) (s : ℕ),
      p.location = Location.field → p.playtimerStartTime = some s →
        (movePlayerCore r n Location.bench Location.field pos p).subbedOnCount
          = p.subbedOnCount + 1
        ∧ (movePlayerCore r n Location.bench Location.field pos p).playtimeSeconds
          = p.playtimeSeconds := by
  intro r n pos p s hloc hst
  constructor
  · rw [movePlayerCore_subbedOnCount]
    simp
  · refine movePlayerCore_playtime_nobank r n Location.bench Location.field pos p s hst ?_
    rintro ⟨h1 | h1, -⟩ <;> simp at h1

/-- Claim C10 (witness): the statement instantiated at a concrete field
entry with a running timer. -/
theorem move_trusts_claimed_source_witness :
    fieldTimer2000Entry.location = Location.field
    ∧ fieldTimer2000Entry.playtimerStartTime = some 2000
    ∧ (movePlayerCore false 3000 Location.bench Location.field none
        fieldTimer2000Entry).subbedOnCount = fieldTimer2000Entry.subbedOnCount + 1
    ∧ (movePlayerCore false 3000 Location.bench Location.field none
        fieldTimer2000Entry).playtimeSeconds = fieldTimer2000Entry.playtimeSeconds :=
  ⟨rfl, rfl,
   (move_trusts_claimed_source false 3000 none fieldTimer2000Entry 2000 rfl rfl).1,
   (move_trusts_claimed_source false 3000 none fieldTimer2000Entry 2000 rfl rfl).2⟩

/-- Claim C8: along any truthful-source sequence of moves with
non-decreasing call times, each at or after the entry's recorded timer
start, playtimeSeconds never decreases; and a banking step (source field
or inactive with a truthy, that is set and nonzero, timer) stores
exactly the rounded banked value, which is at least the previous
playtime when the elapsed interval is non-negative. -/
theorem playtime_never_decreases :
    (∀ (p : PlayerLineupState) (cs : List MoveCall),
        (cs.map MoveCall.now).Pairwise (· ≤ ·) →
        (∀ s, p.playtimerStartTime = some s → ∀ c ∈ cs, s ≤ c.now) →
          p.playtimeSeconds ≤ (applyMoves p cs).playtimeSeconds)
    ∧ (∀ (r : Bool) (n : ℕ) (src tgt : Location) (pos : Option Pos)
        (p : PlayerLineupState) (s : ℕ),
        p.playtimerStartTime = some s → s ≤ n → s ≠ 0 →
        (src = Location.field ∨ src = Location.inactive) →
          (movePlayerCore r n src tgt pos p).playtimeSeconds
            = roundedPlaytime p.playtimeSeconds s n
          ∧ p.playtimeSeconds ≤ roundedPlaytime p.playtimeSeconds s n) := by
  constructor
  · intro p cs
    induction cs generalizing p with
    | nil => intro _ _; exact le_refl _
    | cons c cs ih =>
        intro hsor hst
        rw [applyMoves]
        rw [List.map_cons, List.pairwise_cons] at hsor
        have h1 : p.playtimeSeconds
            ≤ (movePlayerCore c.isRunning c.now p.location c.target c.pos p).playtimeSeconds :=
          movePlayerCore_playtime_ge _ _ _ _ _ _
            (fun s hs => hst s hs c (List.mem_cons_self _ _))
        refine le_trans h1 (ih _ hsor.2 ?_)
        intro s hs c2 hc2
        rcases movePlayerCore_start_cases _ _ _ _ _ _ _ hs with h | h
        · subst h
          exact hsor.1 c2.now (List.mem_map_of_mem _ hc2)
        · exact hst s h c2 (List.mem_cons_of_mem _ hc2)
  · intro r n src tgt pos p s hs hle hz hsrc
    exact ⟨movePlayerCore_playtime_bank r n src tgt pos p s hs hsrc hz,
      le_roundedPlaytime _ _ _ hle⟩

/-- Claim C8 (witness): monotonicity and the banking step instantiated on a
concrete field entry moved to bench after thirty seconds. -/
theorem playtime_never_decreases_witness :
    (movesW8.map MoveCall.now).Pairwise (· ≤ ·)
    ∧ fieldTimer1000Entry.playtimeSeconds
        ≤ (applyMoves fieldTimer1000Entry movesW8).playtimeSeconds
    ∧ (movePlayerCore true 30000 Location.field Location.bench none
        fieldTimer1000Entry).playtimeSeconds
      = roundedPlaytime fieldTimer1000Entry.playtimeSeconds 1000 30000 := by
  refine ⟨by simp [movesW8], ?_, ?_⟩
  · apply playtime_never_decreases.1 fieldTimer1000Entry movesW8 (by simp [movesW8])
    intro s hs c hc
    have hs0 : s = 1000 := (Option.some.inj hs).symm
    subst hs0
    have hc2 : c = ⟨true, 30000, Location.bench, none⟩ := by
      simpa [movesW8] using hc
    subst hc2
    decide
  · exact (playtime_never_decreases.2 true 30000 Location.field Location.bench none
      fieldTimer1000Entry 1000 rfl (by omega) (by decide) (Or.inl rfl)).1

/-- Claim C6: every plan map reachable from the empty map by handlePlanDrop
operations has no repeated bench keys and no repeated field targets;
staging A to X and then B to X with A and B distinct removes the plan
for A, leaving only B to X; and re-staging the same bench player
replaces that player's prior plan. -/
theorem plan_map_conflict_resolution :
    (∀ ops : List (String × String × Option Pos), planInvariant (runPlanDrops ops []))
    ∧ (∀ (m : List (String × PlannedSwap)) (A B X : String) (p1 p2 : Option Pos),
        planInvariant m → A ≠ B →
          lookupPlan A (handlePlanDrop B X p2 (handlePlanDrop A X p1 m)) = none
          ∧ lookupPlan B (handlePlanDrop B X p2 (handlePlanDrop A X p1 m)) = some ⟨X, p2⟩)
    ∧ (∀ (m : List (String × PlannedSwap)) (A X Y : String) (p1 p2 : Option Pos),
        planInvariant m →
          lookupPlan A (handlePlanDrop A Y p2 (handlePlanDrop A X p1 m)) = some ⟨Y, p2⟩) := by
  refine ⟨?_, ?_, ?_⟩
  · intro ops
    exact planInvariant_runPlanDrops ops [] planInvariant_nil
  · intro m A B X p1 p2 hinv hab
    obtain ⟨hk, ht⟩ := hinv
    set mA := eraseKeyPlan A (eraseFirstTargetPlan X m) with hmA
    have hsub1 : (eraseFirstTargetPlan X m).Sublist m := eraseFirstTargetPlan_sublist X m
    have hsub2 : mA.Sublist (eraseFirstTargetPlan X m) := eraseKeyPlan_sublist A _
    have hkX : (planKeys (eraseFirstTargetPlan X m)).Nodup :=
      hk.sublist (planKeys_sublist hsub1)
    have hkA : (planKeys mA).Nodup := hkX.sublist (planKeys_sublist hsub2)
    have hXtargets : X ∉ planTargets mA := by
      intro hmem
      exact not_mem_targets_eraseTarget X m ht ((planTargets_sublist hsub2).subset hmem)
    have hAkeys : A ∉ planKeys mA := not_mem_keys_eraseKey A _ hkX
    have hstep1 : handlePlanDrop A X p1 m = mA ++ [(A, ⟨X, p1⟩)] := rfl
    have herase : eraseFirstTargetPlan X (mA ++ [(A, ⟨X, p1⟩)]) = mA :=
      eraseFirstTargetPlan_append_singleton X A p1 mA hXtargets
    have hstep2 : handlePlanDrop B X p2 (handlePlanDrop A X p1 m)
        = eraseKeyPlan B mA ++ [(B, ⟨X, p2⟩)] := by
      rw [hstep1, handlePlanDrop, herase]
    constructor
    · rw [hstep2]
      have hAB : A ∉ planKeys (eraseKeyPlan B mA) := by
        intro hmem
        exact hAkeys ((planKeys_sublist (eraseKeyPlan_sublist B mA)).subset hmem)
      rw [lookupPlan_append_left_none A _ _ (lookupPlan_none_of_not_mem_keys A _ hAB)]
      unfold lookupPlan
      rw [List.find?_cons_of_neg _ (by simpa using Ne.symm hab)]
      rfl
    · rw [hstep2]
      have hBkeys : B ∉ planKeys (eraseKeyPlan B mA) := not_mem_keys_eraseKey B mA hkA
      rw [lookupPlan_append_left_none B _ _ (lookupPlan_none_of_not_mem_keys B _ hBkeys)]
      unfold lookupPlan
      rw [List.find?_cons_of_pos _ (by simp)]
      rfl
  · intro m A X Y p1 p2 hinv
    have hinv1 : planInvariant (handlePlanDrop A X p1 m) :=
      planInvariant_handlePlanDrop A X p1 m hinv
    have hkY : (planKeys (eraseFirstTargetPlan Y (handlePlanDrop A X p1 m))).Nodup :=
      hinv1.1.sublist (planKeys_sublist (eraseFirstTargetPlan_sublist Y _))
    have hAkeys : A ∉ planKeys (eraseKeyPlan A (eraseFirstTargetPlan Y (handlePlanDrop A X p1 m))) :=
      not_mem_keys_eraseKey A _ hkY
    rw [handlePlanDrop]
    rw [lookupPlan_append_left_none A _ _ (lookupPlan_none_of_not_mem_keys A _ hAkeys)]
    unfold lookupPlan
    rw [List.find?_cons_of_pos _ (by simp)]
    rfl

/-- Claim C6 (witness): the planner statements instantiated on concrete drop
sequences from the empty map. -/
theorem plan_map_conflict_resolution_witness :
    planInvariant ([] : List (String × PlannedSwap))
    ∧ planInvariant (runPlanDrops [("A", "X", none), ("B", "X", none)] [])
    ∧ lookupPlan "A" (handlePlanDrop "B" "X" none (handlePlanDrop "A" "X" none [])) = none
    ∧ lookupPlan "B" (handlePlanDrop "B" "X" none (handlePlanDrop "A" "X" none []))
        = some ⟨"X", none⟩
    ∧ lookupPlan "A" (handlePlanDrop "A" "Y" (some ⟨1, 1⟩) (handlePlanDrop "A" "X" none []))
        = some ⟨"Y", some ⟨1, 1⟩⟩ :=
  ⟨planInvariant_nil,
   plan_map_conflict_resolution.1 [("A", "X", none), ("B", "X", none)],
   (plan_map_conflict_resolution.2.1 [] "A" "B" "X" none none planInvariant_nil
      (by decide)).1,
   (plan_map_conflict_resolution.2.1 [] "A" "B" "X" none none planInvariant_nil
      (by decide)).2,
   plan_map_conflict_resolution.2.2 [] "A" "X" "Y" none (some ⟨1, 1⟩) planInvariant_nil⟩

/-- Claim C5: committing the staged plan A to X and B to Y, all ids
distinct, puts A and B on field at the staged positions of X and Y, puts
X and Y on bench with cleared positions, adds exactly one subbedOnCount
to each of A and B and one subbedOffCount to each of X and Y, leaves
every other entry's lookup unchanged, and exits planning mode with the
plan cleared; cancel clears the plan and exits planning mode leaving the
game untouched. -/
theorem commitPlan_atomic_swap :
    (∀ (now : ℕ) (g : Game) (l : List PlayerLineupState)
        (A B X Y : String) (posX posY : Pos) (eA eB eX eY : PlayerLineupState)
        (planning : Bool),
        g.lineup = some l →
        A ≠ B → A ≠ X → A ≠ Y → B ≠ X → B ≠ Y → X ≠ Y →
        lookupEntry A l = some eA → eA.location = Location.bench →
        lookupEntry B l = some eB → eB.location = Location.bench →
        lookupEntry X l = some eX → eX.location = Location.field →
        eX.position = some posX →
        lookupEntry Y l = some eY → eY.location = Location.field →
        eY.position = some posY →
        ∃ l2,
          (handleConfirmPlan now g ⟨planning,
              [(A, ⟨X, some posX⟩), (B, ⟨Y, some posY⟩)]⟩).1.lineup = some l2
          ∧ (lookupEntry A l2).map PlayerLineupState.location = some Location.field
          ∧ (lookupEntry A l2).map PlayerLineupState.position = some (some posX)
          ∧ (lookupEntry A l2).map PlayerLineupState.subbedOnCount
              = some (eA.subbedOnCount + 1)
          ∧ (lookupEntry A l2).map PlayerLineupState.subbedOffCount
              = some eA.subbedOffCount
          ∧ (lookupEntry B l2).map PlayerLineupState.location = some Location.field
          ∧ (lookupEntry B l2).map PlayerLineupState.position = some (some posY)
          ∧ (lookupEntry B l2).map PlayerLineupState.subbedOnCount
              = some (eB.subbedOnCount + 1)
          ∧ (lookupEntry B l2).map PlayerLineupState.subbedOffCount
              = some eB.subbedOffCount
          ∧ (lookupEntry X l2).map PlayerLineupState.location = some Location.bench
          ∧ (lookupEntry X l2).map PlayerLineupState.position = some none
          ∧ (lookupEntry X l2).map PlayerLineupState.subbedOnCount
              = some eX.subbedOnCount
          ∧ (lookupEntry X l2).map PlayerLineupState.subbedOffCount
              = some (eX.subbedOffCount + 1)
          ∧ (lookupEntry Y l2).map PlayerLineupState.location = some Location.bench
          ∧ (lookupEntry Y l2).map PlayerLineupState.position = some none
          ∧ (lookupEntry Y l2).map PlayerLineupState.subbedOnCount
              = some eY.subbedOnCount
          ∧ (lookupEntry Y l2).map PlayerLineupState.subbedOffCount
              = some (eY.subbedOffCount + 1)
          ∧ (∀ pid, pid ≠ A → pid ≠ B → pid ≠ X → pid ≠ Y →
              lookupEntry pid l2 = lookupEntry pid l)
          ∧ (handleConfirmPlan now g ⟨planning,
              [(A, ⟨X, some posX⟩), (B, ⟨Y, some posY⟩)]⟩).2 = ⟨false, []⟩)
    ∧ (∀ (g : Game) (st : PlannerState), handleCancelPlan g st = (g, ⟨false, []⟩)) := by
  constructor
  · intro now g l A B X Y posX posY eA eB eX eY planning hg
      hAB hAX hAY hBX hBY hXY hA hAloc hB hBloc hX hXloc hXpos hY hYloc hYpos
    have hfold : (handleConfirmPlan now g ⟨planning,
        [(A, ⟨X, some posX⟩), (B, ⟨Y, some posY⟩)]⟩).1
      = movePlayerInGame now
          (movePlayerInGame now
            (movePlayerInGame now
              (movePlayerInGame now g X Location.field Location.bench none)
              A Location.bench Location.field (some posX))
            Y Location.field Location.bench none)
          B Location.bench Location.field (some posY) := rfl
    obtain ⟨l1, hgl1, _, hlookX1, hother1⟩ :=
      movePlayerInGame_lookup now g l X Location.field Location.bench none eX hg hX
    have hlookA1 : lookupEntry A l1 = some eA := by rw [hother1 A hAX, hA]
    obtain ⟨l2, hgl2, _, hlookA2, hother2⟩ :=
      movePlayerInGame_lookup now (movePlayerInGame now g X Location.field Location.bench none)
        l1 A Location.bench Location.field (some posX) eA hgl1 hlookA1
    have hlookY2 : lookupEntry Y l2 = some eY := by
      rw [hother2 Y (Ne.symm hAY), hother1 Y (Ne.symm hXY), hY]
    obtain ⟨l3, hgl3, _, hlookY3, hother3⟩ :=
      movePlayerInGame_lookup now
        (movePlayerInGame now
          (movePlayerInGame now g X Location.field Location.bench none)
          A Location.bench Location.field (some posX))
        l2 Y Location.field Location.bench none eY hgl2 hlookY2
    have hlookB3 : lookupEntry B l3 = some eB := by
      rw [hother3 B hBY, hother2 B (Ne.symm hAB), hother1 B hBX, hB]
    obtain ⟨l4, hgl4, _, hlookB4, hother4⟩ :=
      movePlayerInGame_lookup now
        (movePlayerInGame now
          (movePlayerInGame now
            (movePlayerInGame now g X Location.field Location.bench none)
            A Location.bench Location.field (some posX))
          Y Location.field Location.bench none)
        l3 B Location.bench Location.field (some posY) eB hgl3 hlookB3
    have hA4 : lookupEntry A l4
        = some (movePlayerCore
            ((movePlayerInGame now g X Location.field Location.bench none).timerStatus
              = TimerStatus.running) now Location.bench Location.field (some posX) eA) := by
      rw [hother4 A hAB, hother3 A hAY, hlookA2]
    have hX4 : lookupEntry X l4
        = some (movePlayerCore (g.timerStatus = TimerStatus.running) now
            Location.field Location.bench none eX) := by
      rw [hother4 X hBX.symm, hother3 X hXY, hother2 X hAX.symm, hlookX1]
    have hY4 : lookupEntry Y l4
        = some (movePlayerCore
            ((movePlayerInGame now
                (movePlayerInGame now g X Location.field Location.bench none)
                A Location.bench Location.field (some posX)).timerStatus
              = TimerStatus.running) now Location.field Location.bench none eY) := by
      rw [hother4 Y hBY.symm, hlookY3]
    refine ⟨l4, ?_, ?_, ?_, ?_, ?_, ?_, ?_, ?_, ?_, ?_, ?_, ?_, ?_, ?_, ?_, ?_, ?_, ?_, ?_⟩
    · rw [hfold]; exact hgl4
    · rw [hA4, Option.map_some', movePlayerCore_location]
    · rw [hA4, Option.map_some', movePlayerCore_position]; simp
    · rw [hA4, Option.map_some', movePlayerCore_subbedOnCount]; simp
    · rw [hA4, Option.map_some', movePlayerCore_subbedOffCount]; simp
    · rw [hlookB4, Option.map_some', movePlayerCore_location]
    · rw [hlookB4, Option.map_some', movePlayerCore_position]; simp
    · rw [hlookB4, Option.map_some', movePlayerCore_subbedOnCount]; simp
    · rw [hlookB4, Option.map_some', movePlayerCore_subbedOffCount]; simp
    · rw [hX4, Option.map_some', movePlayerCore_location]
    · rw [hX4, Option.map_some', movePlayerCore_position]; simp
    · rw [hX4, Option.map_some', movePlayerCore_subbedOnCount]; simp
    · rw [hX4, Option.map_some', movePlayerCore_subbedOffCount]; simp
    · rw [hY4, Option.map_some', movePlayerCore_location]
    · rw [hY4, Option.map_some', movePlayerCore_position]; simp
    · rw [hY4, Option.map_some', movePlayerCore_subbedOnCount]; simp
    · rw [hY4, Option.map_some', movePlayerCore_subbedOffCount]; simp
    · intro pid hpA hpB hpX hpY
      rw [hother4 pid hpB, hother3 pid hpY, hother2 pid hpA, hother1 pid hpX]
    · rfl
  · intro g st
    rfl

/-- Claim C5 (witness): the commit and cancel statements instantiated on a
concrete four-player lineup. -/
theorem commitPlan_atomic_swap_witness :
    planGame.lineup = some planGameLineup
    ∧ lookupEntry "A" planGameLineup = some (defaultEntry "A")
    ∧ lookupEntry "X" planGameLineup = some (fieldEntry "X" ⟨10, 10⟩)
    ∧ (∃ l2,
        (handleConfirmPlan 1000 planGame ⟨true,
            [("A", ⟨"X", some ⟨10, 10⟩⟩), ("B", ⟨"Y", some ⟨90, 90⟩⟩)]⟩).1.lineup = some l2
        ∧ (lookupEntry "A" l2).map PlayerLineupState.location = some Location.field
        ∧ (lookupEntry "A" l2).map PlayerLineupState.position = some (some ⟨10, 10⟩)
        ∧ (lookupEntry "A" l2).map PlayerLineupState.subbedOnCount
            = some ((defaultEntry "A").subbedOnCount + 1)
        ∧ (lookupEntry "A" l2).map PlayerLineupState.subbedOffCount
            = some (defaultEntry "A").subbedOffCount
        ∧ (lookupEntry "B" l2).map PlayerLineupState.location = some Location.field
        ∧ (lookupEntry "B" l2).map PlayerLineupState.position = some (some ⟨90, 90⟩)
        ∧ (lookupEntry "B" l2).map PlayerLineupState.subbedOnCount
            = some ((defaultEntry "B").subbedOnCount + 1)
        ∧ (lookupEntry "B" l2).map PlayerLineupState.subbedOffCount
            = some (defaultEntry "B").subbedOffCount
        ∧ (lookupEntry "X" l2).map PlayerLineupState.location = some Location.bench
        ∧ (lookupEntry "X" l2).map PlayerLineupState.position = some none
        ∧ (lookupEntry "X" l2).map PlayerLineupState.subbedOnCount
            = some (fieldEntry "X" ⟨10, 10⟩).subbedOnCount
        ∧ (lookupEntry "X" l2).map PlayerLineupState.subbedOffCount
            = some ((fieldEntry "X" ⟨10, 10⟩).subbedOffCount + 1)
        ∧ (lookupEntry "Y" l2).map PlayerLineupState.location = some Location.bench
        ∧ (lookupEntry "Y" l2).map PlayerLineupState.position = some none
        ∧ (lookupEntry "Y" l2).map PlayerLineupState.subbedOnCount
            = some (fieldEntry "Y" ⟨90, 90⟩).subbedOnCount
        ∧ (lookupEntry "Y" l2).map PlayerLineupState.subbedOffCount
            = some ((fieldEntry "Y" ⟨90, 90⟩).subbedOffCount + 1)
        ∧ (∀ pid, pid ≠ "A" → pid ≠ "B" → pid ≠ "X" → pid ≠ "Y" →
            lookupEntry pid l2 = lookupEntry pid planGameLineup)
        ∧ (handleConfirmPlan 1000 planGame ⟨true,
            [("A", ⟨"X", some ⟨10, 10⟩⟩), ("B", ⟨"Y", some ⟨90, 90⟩⟩)]⟩).2 = ⟨false, []⟩)
    ∧ handleCancelPlan planGame ⟨true, [("A", ⟨"X", some ⟨10, 10⟩⟩)]⟩
        = (planGame, ⟨false, []⟩) :=
  ⟨rfl, by decide, by decide,
   commitPlan_atomic_swap.1 1000 planGame planGameLineup "A" "B" "X" "Y"
     ⟨10, 10⟩ ⟨90, 90⟩ (defaultEntry "A") (defaultEntry "B")
     (fieldEntry "X" ⟨10, 10⟩) (fieldEntry "Y" ⟨90, 90⟩) true
     rfl (by decide) (by decide) (by decide) (by decide) (by decide) (by decide)
     (by decide) (by decide) (by decide) (by decide) (by decide) (by decide)
     (by decide) (by decide) (by decide) (by decide),
   commitPlan_atomic_swap.2 planGame ⟨true, [("A", ⟨"X", some ⟨10, 10⟩⟩)]⟩⟩
